import Mathlib

/-!
Shallow embedding of the DEX order-orchestration and routing code
(src/hub.js and src/index.js).  Quote fields are JS numbers used only
through ordered-field operations, so they are modelled as rationals.
JS truthiness is modelled explicitly where the source relies on it:
an absent value is `none`, a numeric preference is falsy exactly when
it is `0`, a string is falsy exactly when it is empty, and an array
(even an empty one) is always truthy.
-/

/-- A provider quote (src/hub.js).  Field `fee` is carried by quotes in the
tests but never read by the routing code, so it is omitted. -/
structure Quote where
  provider : String
  price : ℚ
  outputAmount : ℚ
  priceImpact : ℚ
  liquidity : ℚ
deriving DecidableEq, Repr

/-- One step of the `reduce` in `getBestPriceRoute` (src/hub.js line 23):
the current quote replaces the best only on strictly larger output. -/
def bestPriceStep (best current : Quote) : Quote :=
  if current.outputAmount > best.outputAmount then current else best

/-- `getBestPriceRoute` on a non-empty list, written as JS `reduce` with the
head as initial accumulator. -/
def bestPriceRun (h : Quote) (t : List Quote) : Quote :=
  t.foldl bestPriceStep h

/-- One step of the `reduce` in `getLowestSlippageRoute` (src/hub.js line 34). -/
def lowestSlippageStep (best current : Quote) : Quote :=
  if current.priceImpact < best.priceImpact then current else best

/-- `getLowestSlippageRoute` on a non-empty list. -/
def lowestSlippageRun (h : Quote) (t : List Quote) : Quote :=
  t.foldl lowestSlippageStep h

/-- One step of the `reduce` in `getHighestLiquidityRoute` (src/hub.js line 45). -/
def highestLiquidityStep (best current : Quote) : Quote :=
  if current.liquidity > best.liquidity then current else best

/-- `getHighestLiquidityRoute` on a non-empty list. -/
def highestLiquidityRun (h : Quote) (t : List Quote) : Quote :=
  t.foldl highestLiquidityStep h

/-- The static `executionSpeed` table of `getFastestExecutionRoute`
(src/hub.js lines 57-62); unknown providers map to 0. -/
def executionSpeed (provider : String) : Nat :=
  if provider = "Jupiter" then 4
  else if provider = "Meteora" then 3
  else if provider = "Orca" then 2
  else if provider = "Raydium" then 1
  else 0

/-- One step of the `reduce` in `getFastestExecutionRoute` (src/hub.js lines 64-68). -/
def fastestExecutionStep (best current : Quote) : Quote :=
  if executionSpeed current.provider > executionSpeed best.provider then current else best

/-- `getFastestExecutionRoute` on a non-empty list. -/
def fastestExecutionRun (h : Quote) (t : List Quote) : Quote :=
  t.foldl fastestExecutionStep h

/-- The `routingStrategies` table of the hub constructor (src/hub.js lines 9-14):
string-keyed dispatch to the four reduction functions. -/
def routingStrategies (strategy : String) : Option (Quote → List Quote → Quote) :=
  if strategy = "BEST_PRICE" then some bestPriceRun
  else if strategy = "LOWEST_SLIPPAGE" then some lowestSlippageRun
  else if strategy = "HIGHEST_LIQUIDITY" then some highestLiquidityRun
  else if strategy = "FASTEST_EXECUTION" then some fastestExecutionRun
  else none

/-- `userPreferences` as read by `selectBestRoute`.  `none` models an absent
(JS `undefined`) field. -/
structure UserPreferences where
  excludeDEXs : Option (List String) := none
  minLiquidity : Option ℚ := none
  maxSlippage : Option ℚ := none
deriving DecidableEq, Repr

/-- The exclude-providers block of `selectBestRoute` (src/hub.js lines 91-96).
A JS array is truthy even when empty, so the guard is just presence plus
membership of the current winner's provider; the filter runs over the full
`quotes` argument and is skipped when it leaves nothing. -/
def applyExcludeFilter (run : Quote → List Quote → Quote) (quotes : List Quote)
    (excludeDEXs : Option (List String)) (bestRoute : Quote) : Quote :=
  match excludeDEXs with
  | none => bestRoute
  | some ex =>
    if ex.contains bestRoute.provider then
      match quotes.filter (fun q => !(ex.contains q.provider)) with
      | [] => bestRoute
      | fh :: ft => run fh ft
    else bestRoute

/-- The minimum-liquidity block of `selectBestRoute` (src/hub.js lines 99-104).
A numeric preference of `0` is JS-falsy, so the whole block is skipped then;
otherwise it fires only when the current winner is below the threshold, and
filters the full `quotes` argument. -/
def applyMinLiquidityFilter (run : Quote → List Quote → Quote) (quotes : List Quote)
    (minLiquidity : Option ℚ) (bestRoute : Quote) : Quote :=
  match minLiquidity with
  | none => bestRoute
  | some v =>
    if v ≠ 0 ∧ bestRoute.liquidity < v then
      match quotes.filter (fun q => decide (q.liquidity ≥ v)) with
      | [] => bestRoute
      | fh :: ft => run fh ft
    else bestRoute

/-- The maximum-slippage block of `selectBestRoute` (src/hub.js lines 107-112),
with the same truthiness guard as the liquidity block. -/
def applyMaxSlippageFilter (run : Quote → List Quote → Quote) (quotes : List Quote)
    (maxSlippage : Option ℚ) (bestRoute : Quote) : Quote :=
  match maxSlippage with
  | none => bestRoute
  | some v =>
    if v ≠ 0 ∧ bestRoute.priceImpact > v then
      match quotes.filter (fun q => decide (q.priceImpact ≤ v)) with
      | [] => bestRoute
      | fh :: ft => run fh ft
    else bestRoute

/-- Errors thrown by `selectBestRoute`. -/
inductive RoutingError where
  | noQuotes
  | unknownStrategy (strategy : String)
deriving DecidableEq, Repr

/-- `selectBestRoute` (src/hub.js lines 78-115): guard against an empty list,
look up the strategy, take the base winner, then run the three preference
blocks in source order. -/
def selectBestRoute (quotes : List Quote) (strategy : String)
    (userPreferences : UserPreferences) : Except RoutingError Quote :=
  match quotes with
  | [] => .error .noQuotes
  | h :: t =>
    match routingStrategies strategy with
    | none => .error (.unknownStrategy strategy)
    | some run =>
      let r1 := run h t
      let r2 := applyExcludeFilter run quotes userPreferences.excludeDEXs r1
      let r3 := applyMinLiquidityFilter run quotes userPreferences.minLiquidity r2
      let r4 := applyMaxSlippageFilter run quotes userPreferences.maxSlippage r3
      .ok r4

/-- The per-strategy winners and market-wide aggregates computed by
`getRoutingAnalysis` (src/hub.js lines 143-156).  The wall-clock `timestamp`
field is omitted (it reads the system clock and no claim touches it).
Each strategy entry is computed inside a try/catch in the source, hence the
`Option`; on a non-empty list, however, no reduction throws. -/
structure RoutingAnalysis where
  totalQuotes : Nat
  priceSpread : ℚ
  priceSpreadPercentage : ℚ
  averagePrice : ℚ
  bestOutputAmount : ℚ
  worstOutputAmount : ℚ
  averagePriceImpact : ℚ
  totalLiquidity : ℚ
  bestPrice : Option Quote
  lowestSlippage : Option Quote
  highestLiquidity : Option Quote
  fastestExecution : Option Quote
  recommendation : Option Quote
deriving DecidableEq, Repr

/-- JS `Math.max` over a non-empty spread, as a fold. -/
def listMax (h : ℚ) (t : List ℚ) : ℚ := t.foldl max h

/-- JS `Math.min` over a non-empty spread, as a fold. -/
def listMin (h : ℚ) (t : List ℚ) : ℚ := t.foldl min h

/-- JS `reduce((sum, x) => sum + x, 0)`. -/
def listSum (l : List ℚ) : ℚ := l.foldl (fun sum x => sum + x) 0

/-- `getRoutingAnalysis` (src/hub.js lines 122-158).  The input is `Option`
because the source guard `!quotes || quotes.length === 0` also covers a
missing (null/undefined) argument; both cases return null, modelled `none`.
Rational division by zero yields 0 where JS would yield a non-finite number
in `priceSpreadPercentage` when the minimum price is 0; no claim and no test
exercises that case. -/
def getRoutingAnalysis (quotes : Option (List Quote)) : Option RoutingAnalysis :=
  match quotes with
  | none => none
  | some [] => none
  | some (h :: t) =>
    let prices := (h :: t).map Quote.price
    let priceImpacts := (h :: t).map Quote.priceImpact
    let liquidities := (h :: t).map Quote.liquidity
    some {
      totalQuotes := (h :: t).length
      priceSpread := listMax h.price (t.map Quote.price) - listMin h.price (t.map Quote.price)
      priceSpreadPercentage :=
        (listMax h.price (t.map Quote.price) - listMin h.price (t.map Quote.price)) /
          listMin h.price (t.map Quote.price) * 100
      averagePrice := listSum prices / prices.length
      bestOutputAmount := listMax h.outputAmount (t.map Quote.outputAmount)
      worstOutputAmount := listMin h.outputAmount (t.map Quote.outputAmount)
      averagePriceImpact := listSum priceImpacts / priceImpacts.length
      totalLiquidity := listSum liquidities
      bestPrice := some (bestPriceRun h t)
      lowestSlippage := some (lowestSlippageRun h t)
      highestLiquidity := some (highestLiquidityRun h t)
      fastestExecution := some (fastestExecutionRun h t)
      recommendation := some (bestPriceRun h t)
    }

/-- Per-order quote accumulator, the `orderQuotes` entry of src/index.js
lines 565-570: collected quotes, the routing decision once made
(`bestQuote`, null before that), the fan-out size and the arrival count. -/
structure QuotesInfo where
  quotes : List Quote
  bestQuote : Option Quote
  expectedQuotes : Nat
  receivedQuotes : Nat
deriving DecidableEq, Repr

/-- `hasQuoteTimeout` (src/index.js lines 96-102): false when the order info
or its start time is missing, otherwise whether more than 10 000 ms have
elapsed since `startTime`. -/
def hasQuoteTimeout (startTime : Option ℚ) (now : ℚ) : Bool :=
  match startTime with
  | none => false
  | some t => now - t > 10000

/-- `handleQuoteCompletion` (src/index.js lines 107-159) restricted to its
state effect on the order's `QuotesInfo`: append the quote stamped with its
provider, bump the received count, then decide whether
`processQuotesAndRoute` is invoked.  The returned Bool is that decision;
note the source checks `receivedQuotes >= expectedQuotes` or
`receivedQuotes >= 2 && hasQuoteTimeout`, with no look at `bestQuote`. -/
def handleQuoteCompletion (qi : QuotesInfo) (dexName : String) (result : Quote)
    (startTime : Option ℚ) (now : ℚ) : QuotesInfo × Bool :=
  let quoteWithProvider := { result with provider := dexName }
  let qi2 := { qi with
    quotes := qi.quotes ++ [quoteWithProvider]
    receivedQuotes := qi.receivedQuotes + 1 }
  let hasAllQuotes := qi2.receivedQuotes ≥ qi2.expectedQuotes
  let hasMinimumQuotes := qi2.receivedQuotes ≥ 2
  let hasTimedOut := hasQuoteTimeout startTime now
  let shouldProcess := hasAllQuotes || (hasMinimumQuotes && hasTimedOut)
  (qi2, shouldProcess)

/-- The grace-window callback scheduled by `handleQuoteFailure`
(src/index.js lines 179-187): after the 2 s delay, routing is invoked only
if at least two quotes arrived and `bestQuote` is still null. -/
def graceWindowInvokesRouting (qi : QuotesInfo) : Bool :=
  qi.receivedQuotes ≥ 2 && qi.bestQuote.isNone

/-- What the 12 s quote-collection timeout callback does when it fires
(src/index.js lines 573-579): either it calls `processQuotesAndRoute`, or
it does nothing at all (no failure is recorded, no cleanup is scheduled). -/
inductive HardDeadlineEffect where
  | invokeRouting
  | noAction
deriving DecidableEq, Repr

/-- The body of the 12 s timeout callback (src/index.js lines 573-579):
routing is invoked only when the order still exists, at least two quotes
arrived, and `bestQuote` is still null; in every other case the callback
returns without touching the order. -/
def quoteCollectionTimeoutEffect (qi : Option QuotesInfo) : HardDeadlineEffect :=
  match qi with
  | none => .noAction
  | some info =>
    if info.receivedQuotes ≥ 2 && info.bestQuote.isNone then .invokeRouting
    else .noAction

/-- Result object delivered by a swap job (src/worker.js), as read by
`handleSwapCompletion`: a success flag and a transaction hash that may be
missing (`none`) or empty. -/
structure SwapResult where
  success : Bool
  transactionHash : Option String
deriving DecidableEq, Repr

/-- JS falsiness of an optional string: undefined/null or the empty string. -/
def jsStringFalsy : Option String → Bool
  | none => true
  | some s => s = ""

/-- Terminal outcome of an order whose swap job completed. -/
inductive OrderOutcome where
  | completed
  | failed
deriving DecidableEq, Repr

/-- `handleSwapCompletion` (src/index.js lines 194-216) reduced to the
order's terminal outcome: a result with a false success flag or a falsy
`transactionHash` is diverted to `handleSwapFailure` (stage `swap_failed`,
then cleanup), everything else reaches `completeOrder`. -/
def handleSwapCompletion (result : SwapResult) : OrderOutcome :=
  if !result.success || jsStringFalsy result.transactionHash then .failed
  else .completed

/-- The fold underlying `List.argmax` agrees with the JS `reduce` of
`getBestPriceRoute` once the accumulator is seeded with the head. -/
theorem foldl_argAux_eq_bestPriceRun :
    ∀ (t : List Quote) (h : Quote),
      List.foldl (List.argAux fun b c => Quote.outputAmount c < Quote.outputAmount b)
        (some h) t = some (bestPriceRun h t)
  | [], _ => rfl
  | x :: t, h => by
    rw [List.foldl_cons]
    have hstep :
        List.argAux (fun b c => Quote.outputAmount c < Quote.outputAmount b) (some h) x
          = some (bestPriceStep h x) := by
      by_cases hc : h.outputAmount < x.outputAmount <;>
        simp [List.argAux, bestPriceStep, gt_iff_lt, hc]
    rw [hstep, foldl_argAux_eq_bestPriceRun t (bestPriceStep h x)]
    rfl

/-- On a non-empty list, `getBestPriceRoute` computes `List.argmax` of the
output amount. -/
theorem bestPriceRun_eq_argmax (h : Quote) (t : List Quote) :
    (h :: t).argmax Quote.outputAmount = some (bestPriceRun h t) := by
  show List.foldl (List.argAux fun b c => Quote.outputAmount c < Quote.outputAmount b)
      (List.argAux (fun b c => Quote.outputAmount c < Quote.outputAmount b) none h) t
    = some (bestPriceRun h t)
  exact foldl_argAux_eq_bestPriceRun t h

/-- The best-price winner is one of the quotes. -/
theorem bestPriceRun_mem (h : Quote) (t : List Quote) : bestPriceRun h t ∈ h :: t :=
  List.argmax_mem (Option.mem_def.mpr (bestPriceRun_eq_argmax h t))

/-- The best-price winner has maximal output amount. -/
theorem bestPriceRun_le (h : Quote) (t : List Quote) :
    ∀ q ∈ h :: t, q.outputAmount ≤ (bestPriceRun h t).outputAmount :=
  fun _ hq =>
    List.le_of_mem_argmax hq (Option.mem_def.mpr (bestPriceRun_eq_argmax h t))

/-- Among quotes tying for the maximal output amount, the best-price winner
is the first one in list order. -/
theorem bestPriceRun_first (h : Quote) (t : List Quote) :
    ∀ q ∈ h :: t, q.outputAmount = (bestPriceRun h t).outputAmount →
      (h :: t).indexOf (bestPriceRun h t) ≤ (h :: t).indexOf q :=
  fun _ hq heq =>
    List.index_of_argmax (Option.mem_def.mpr (bestPriceRun_eq_argmax h t)) hq
      (le_of_eq heq.symm)

/-- Scenario quote: Raydium, output 100. -/
def qRay100 : Quote := { provider := "Raydium", price := 1, outputAmount := 100, priceImpact := 1, liquidity := 1000000 }

/-- Scenario quote: Orca, output 105 (the best-price winner of scenario A). -/
def qOrca105 : Quote := { provider := "Orca", price := 1, outputAmount := 105, priceImpact := 1, liquidity := 1000000 }

/-- Scenario quote: Jupiter, output 99. -/
def qJup99 : Quote := { provider := "Jupiter", price := 1, outputAmount := 99, priceImpact := 1, liquidity := 1000000 }

/-- Scenario quote: Meteora, output 102. -/
def qMet102 : Quote := { provider := "Meteora", price := 1, outputAmount := 102, priceImpact := 1, liquidity := 1000000 }

/-- A second Orca quote, output 90, for the all-excluded corner of C6. -/
def qOrca90 : Quote := { provider := "Orca", price := 1, outputAmount := 90, priceImpact := 1, liquidity := 1000000 }

/-- Raydium quote with high liquidity, for the C3 filter-interaction example. -/
def qRayHiLiq : Quote := { provider := "Raydium", price := 1, outputAmount := 105, priceImpact := 1, liquidity := 500000 }

/-- Orca quote with low liquidity, for the C3 filter-interaction example. -/
def qOrcaLoLiq : Quote := { provider := "Orca", price := 1, outputAmount := 100, priceImpact := 1, liquidity := 50000 }

/-- C5: the `BEST_PRICE` reduction returns a quote of the list with maximal
`outputAmount`; on ties the first-encountered quote wins (the winner's index
is minimal among tying quotes, because `current` replaces `best` only on
strict improvement); and on outputs [100, 105, 99, 102] the selected output
is 105. -/
theorem c5_best_price_maximal_first_tie :
    (∀ (h : Quote) (t : List Quote),
        bestPriceRun h t ∈ h :: t ∧
        (∀ q ∈ h :: t, q.outputAmount ≤ (bestPriceRun h t).outputAmount) ∧
        (∀ q ∈ h :: t, q.outputAmount = (bestPriceRun h t).outputAmount →
          (h :: t).indexOf (bestPriceRun h t) ≤ (h :: t).indexOf q)) ∧
    (bestPriceRun qRay100 [qOrca105, qJup99, qMet102]).outputAmount = 105 :=
  ⟨fun h t => ⟨bestPriceRun_mem h t, bestPriceRun_le h t, bestPriceRun_first h t⟩,
    by decide⟩

/-- Witness for C5 at scenario A: the Meteora quote's output is bounded by
the winner's, and the winner's index is no later than the tying Orca
quote's. -/
theorem c5_best_price_maximal_first_tie_witness :
    qMet102.outputAmount ≤ (bestPriceRun qRay100 [qOrca105, qJup99, qMet102]).outputAmount ∧
    (qRay100 :: [qOrca105, qJup99, qMet102]).indexOf
        (bestPriceRun qRay100 [qOrca105, qJup99, qMet102]) ≤
      (qRay100 :: [qOrca105, qJup99, qMet102]).indexOf qOrca105 :=
  ⟨(c5_best_price_maximal_first_tie.1 qRay100 [qOrca105, qJup99, qMet102]).2.1
      qMet102 (by decide),
    (c5_best_price_maximal_first_tie.1 qRay100 [qOrca105, qJup99, qMet102]).2.2
      qOrca105 (by decide) (by decide)⟩

/-- C8: `selectBestRoute` is deterministic — equal quote lists, strategy
names and preferences give equal results. -/
theorem c8_select_best_route_deterministic :
    ∀ (q1 q2 : List Quote) (s1 s2 : String) (p1 p2 : UserPreferences),
      q1 = q2 → s1 = s2 → p1 = p2 →
      selectBestRoute q1 s1 p1 = selectBestRoute q2 s2 p2 := by
  intro q1 q2 s1 s2 p1 p2 hq hs hp
  rw [hq, hs, hp]

/-- Witness for C8 at a concrete invocation pair. -/
theorem c8_select_best_route_deterministic_witness :
    selectBestRoute [qRay100, qOrca105] "BEST_PRICE" {} =
      selectBestRoute [qRay100, qOrca105] "BEST_PRICE" {} :=
  c8_select_best_route_deterministic _ _ _ _ _ _ rfl rfl rfl

/-- C9: `getRoutingAnalysis` returns null on a missing or empty quote list,
while `selectBestRoute` errors on an empty list. -/
theorem c9_analysis_null_select_throws :
    getRoutingAnalysis none = none ∧
    getRoutingAnalysis (some []) = none ∧
    ∀ (s : String) (p : UserPreferences), selectBestRoute [] s p = .error .noQuotes :=
  ⟨rfl, rfl, fun _ _ => rfl⟩

/-- C7: a swap result with a false success flag, or a missing or empty
transaction hash, takes the execution-failure path and never completes the
order. -/
theorem c7_invalid_swap_result_fails :
    ∀ r : SwapResult,
      (r.success = false ∨ r.transactionHash = none ∨ r.transactionHash = some "") →
      handleSwapCompletion r = .failed ∧ handleSwapCompletion r ≠ .completed := by
  intro r hr
  rcases r with ⟨s, tx⟩
  rcases hr with hs | htx | htx
  · subst hs
    have h1 : handleSwapCompletion { success := false, transactionHash := tx } = .failed := rfl
    refine ⟨h1, ?_⟩
    rw [h1]
    decide
  · subst htx
    rcases s <;> exact ⟨rfl, by decide⟩
  · subst htx
    rcases s <;> exact ⟨by decide, by decide⟩

/-- Witness for C7, scenario F: success flag true but no transaction hash. -/
theorem c7_invalid_swap_result_fails_witness :
    handleSwapCompletion { success := true, transactionHash := none } = .failed ∧
    handleSwapCompletion { success := true, transactionHash := none } ≠ .completed :=
  c7_invalid_swap_result_fails { success := true, transactionHash := none }
    (Or.inr (Or.inl rfl))

/-- C10: the liquidity and slippage blocks of `selectBestRoute` change the
winner only when the preference is present, non-zero (JS truthiness) and the
current winner itself violates the threshold; a preference of 0 is ignored,
and a winner already satisfying the threshold is kept whatever the other
quotes look like. -/
theorem c10_threshold_filters_guarded :
    (∀ (run : Quote → List Quote → Quote) (quotes : List Quote) (ml : Option ℚ) (b : Quote),
        applyMinLiquidityFilter run quotes ml b ≠ b →
        ∃ v, ml = some v ∧ v ≠ 0 ∧ b.liquidity < v) ∧
    (∀ (run : Quote → List Quote → Quote) (quotes : List Quote) (b : Quote),
        applyMinLiquidityFilter run quotes (some 0) b = b) ∧
    (∀ (run : Quote → List Quote → Quote) (quotes : List Quote) (v : ℚ) (b : Quote),
        v ≤ b.liquidity → applyMinLiquidityFilter run quotes (some v) b = b) ∧
    (∀ (run : Quote → List Quote → Quote) (quotes : List Quote) (ms : Option ℚ) (b : Quote),
        applyMaxSlippageFilter run quotes ms b ≠ b →
        ∃ v, ms = some v ∧ v ≠ 0 ∧ v < b.priceImpact) ∧
    (∀ (run : Quote → List Quote → Quote) (quotes : List Quote) (b : Quote),
        applyMaxSlippageFilter run quotes (some 0) b = b) ∧
    (∀ (run : Quote → List Quote → Quote) (quotes : List Quote) (v : ℚ) (b : Quote),
        b.priceImpact ≤ v → applyMaxSlippageFilter run quotes (some v) b = b) := by
  refine ⟨?_, ?_, ?_, ?_, ?_, ?_⟩
  · intro run quotes ml b hne
    match ml with
    | none => exact absurd rfl hne
    | some v =>
      by_cases hc : v ≠ 0 ∧ b.liquidity < v
      · exact ⟨v, rfl, hc.1, hc.2⟩
      · exact absurd (by simp only [applyMinLiquidityFilter]; rw [if_neg hc]) hne
  · intro run quotes b
    simp only [applyMinLiquidityFilter]
    rw [if_neg]
    rintro ⟨hv, -⟩
    exact hv rfl
  · intro run quotes v b hle
    simp only [applyMinLiquidityFilter]
    rw [if_neg]
    rintro ⟨-, hlt⟩
    exact absurd hlt (not_lt.mpr hle)
  · intro run quotes ms b hne
    match ms with
    | none => exact absurd rfl hne
    | some v =>
      by_cases hc : v ≠ 0 ∧ b.priceImpact > v
      · exact ⟨v, rfl, hc.1, hc.2⟩
      · exact absurd (by simp only [applyMaxSlippageFilter]; rw [if_neg hc]) hne
  · intro run quotes b
    simp only [applyMaxSlippageFilter]
    rw [if_neg]
    rintro ⟨hv, -⟩
    exact hv rfl
  · intro run quotes v b hle
    simp only [applyMaxSlippageFilter]
    rw [if_neg]
    rintro ⟨-, hlt⟩
    exact absurd hlt (not_lt.mpr hle)

/-- Witness for C10: zero thresholds are ignored, and thresholds the current
winner already meets leave it unchanged. -/
theorem c10_threshold_filters_guarded_witness :
    applyMinLiquidityFilter bestPriceRun [qRayHiLiq, qOrcaLoLiq] (some 0) qOrcaLoLiq = qOrcaLoLiq ∧
    applyMinLiquidityFilter bestPriceRun [qRayHiLiq, qOrcaLoLiq] (some 40000) qOrcaLoLiq = qOrcaLoLiq ∧
    applyMaxSlippageFilter bestPriceRun [qRayHiLiq, qOrcaLoLiq] (some 0) qOrcaLoLiq = qOrcaLoLiq ∧
    applyMaxSlippageFilter bestPriceRun [qRayHiLiq, qOrcaLoLiq] (some 5) qOrcaLoLiq = qOrcaLoLiq :=
  ⟨c10_threshold_filters_guarded.2.1 bestPriceRun [qRayHiLiq, qOrcaLoLiq] qOrcaLoLiq,
    c10_threshold_filters_guarded.2.2.1 bestPriceRun [qRayHiLiq, qOrcaLoLiq] 40000 qOrcaLoLiq
      (by decide),
    c10_threshold_filters_guarded.2.2.2.2.1 bestPriceRun [qRayHiLiq, qOrcaLoLiq] qOrcaLoLiq,
    c10_threshold_filters_guarded.2.2.2.2.2 bestPriceRun [qRayHiLiq, qOrcaLoLiq] 5 qOrcaLoLiq
      (by decide)⟩

/-- Order state after an earlier trigger already recorded a routing decision
(`bestQuote` set) while one of four quote jobs is still outstanding. -/
def c1State : QuotesInfo :=
  { quotes := [qRay100, qOrca105, qJup99]
    bestQuote := some qOrca105
    expectedQuotes := 4
    receivedQuotes := 3 }

/-- C1 fails on the code: with a routing decision already recorded, the
grace-window and hard-deadline triggers decline to act, but the
quote-completion trigger still invokes routing (its `shouldProcess` check
never looks at `bestQuote`), so the routing decision can be invoked twice. -/
theorem c1_completion_trigger_ignores_selected :
    c1State.bestQuote.isSome = true ∧
    (handleQuoteCompletion c1State "Meteora" qMet102 (some 0) 11000).2 = true ∧
    graceWindowInvokesRouting c1State = false ∧
    quoteCollectionTimeoutEffect (some c1State) = .noAction :=
  ⟨rfl, rfl, rfl, rfl⟩

/-- C2 fails on the code: when the 12 s quote-collection timeout fires with
fewer than two quotes received, its callback does nothing whatsoever — the
order is not failed, no `InsufficientQuotes` error exists anywhere, and the
order record simply stays pending. -/
theorem c2_sub_quorum_deadline_is_noop :
    ∀ qi : QuotesInfo, qi.receivedQuotes < 2 →
      quoteCollectionTimeoutEffect (some qi) = .noAction := by
  intro qi hq
  unfold quoteCollectionTimeoutEffect
  have h2 : ¬ (2 ≤ qi.receivedQuotes) := by omega
  simp [h2]

/-- Witness for C2: scenario C's state, 1 of 4 quotes received when the hard
deadline fires. -/
theorem c2_sub_quorum_deadline_is_noop_witness :
    quoteCollectionTimeoutEffect
        (some { quotes := [qRay100], bestQuote := none,
                expectedQuotes := 4, receivedQuotes := 1 }) = .noAction :=
  c2_sub_quorum_deadline_is_noop
    { quotes := [qRay100], bestQuote := none, expectedQuotes := 4, receivedQuotes := 1 }
    (by decide)

/-- C4: on a quote-job completion (for an order whose fan-out is not yet
complete), routing is triggered if and only if the post-increment received
count equals the expected count, or is at least 2 with more than 10 000 ms
elapsed since the order's start time. -/
theorem c4_should_process_characterisation :
    ∀ (qi : QuotesInfo) (dex : String) (result : Quote) (t0 now : ℚ),
      qi.receivedQuotes < qi.expectedQuotes →
      ((handleQuoteCompletion qi dex result (some t0) now).2 = true ↔
        (qi.receivedQuotes + 1 = qi.expectedQuotes ∨
          (2 ≤ qi.receivedQuotes + 1 ∧ now - t0 > 10000))) := by
  intro qi dex result t0 now hlt
  simp only [handleQuoteCompletion, hasQuoteTimeout, Bool.or_eq_true, Bool.and_eq_true,
    decide_eq_true_eq, ge_iff_le]
  constructor
  · rintro (h1 | h2)
    · left; omega
    · right; exact h2
  · rintro (h1 | h2)
    · left; omega
    · right; exact h2

/-- Witness for C4: second of four quotes arrives 11 s after start — routing
is triggered by the soft-timeout arm. -/
theorem c4_should_process_characterisation_witness :
    (handleQuoteCompletion
        { quotes := [qRay100], bestQuote := none, expectedQuotes := 4, receivedQuotes := 1 }
        "Orca" qOrca105 (some 0) 11000).2 = true ↔
      (1 + 1 = 4 ∨ (2 ≤ 1 + 1 ∧ (11000 : ℚ) - 0 > 10000)) :=
  c4_should_process_characterisation
    { quotes := [qRay100], bestQuote := none, expectedQuotes := 4, receivedQuotes := 1 }
    "Orca" qOrca105 0 11000 (by decide)

/-- Under `BEST_PRICE` with only an exclude list set, `selectBestRoute` is
the base winner pushed through the exclude block (the liquidity and slippage
blocks are absent, hence skipped). -/
theorem selectBestRoute_bestPrice_exclude (h : Quote) (t : List Quote) (ex : List String) :
    selectBestRoute (h :: t) "BEST_PRICE" { excludeDEXs := some ex } =
      .ok (applyExcludeFilter bestPriceRun (h :: t) (some ex) (bestPriceRun h t)) :=
  rfl

/-- Under `BEST_PRICE` with an exclude list and a minimum liquidity set,
`selectBestRoute` is the base winner pushed through the exclude block and
then the liquidity block. -/
theorem selectBestRoute_bestPrice_exclude_minLiq (h : Quote) (t : List Quote)
    (ex : List String) (v : ℚ) :
    selectBestRoute (h :: t) "BEST_PRICE" { excludeDEXs := some ex, minLiquidity := some v } =
      .ok (applyMinLiquidityFilter bestPriceRun (h :: t) (some v)
            (applyExcludeFilter bestPriceRun (h :: t) (some ex) (bestPriceRun h t))) :=
  rfl

/-- C6: when the exclude list is exactly the `BEST_PRICE` winner's provider,
`selectBestRoute` re-selects the best-output quote among the non-excluded
quotes; if excluding that provider empties the set, the original winner is
kept. -/
theorem c6_exclude_winner_second_best :
    (∀ (h : Quote) (t : List Quote) (fh : Quote) (ft : List Quote),
        2 ≤ (h :: t).length →
        (h :: t).filter (fun q => !([(bestPriceRun h t).provider].contains q.provider))
            = fh :: ft →
        ∃ r, selectBestRoute (h :: t) "BEST_PRICE"
              { excludeDEXs := some [(bestPriceRun h t).provider] } = .ok r ∧
          r ∈ fh :: ft ∧ ∀ q ∈ fh :: ft, q.outputAmount ≤ r.outputAmount) ∧
    (∀ (h : Quote) (t : List Quote),
        2 ≤ (h :: t).length →
        (h :: t).filter (fun q => !([(bestPriceRun h t).provider].contains q.provider))
            = [] →
        selectBestRoute (h :: t) "BEST_PRICE"
            { excludeDEXs := some [(bestPriceRun h t).provider] }
          = .ok (bestPriceRun h t)) := by
  have hcont : ∀ (h : Quote) (t : List Quote),
      ([(bestPriceRun h t).provider].contains (bestPriceRun h t).provider) = true := by
    intro h t
    simp [List.contains_cons]
  constructor
  · intro h t fh ft _ hfil
    have happ : applyExcludeFilter bestPriceRun (h :: t)
        (some [(bestPriceRun h t).provider]) (bestPriceRun h t) = bestPriceRun fh ft := by
      simp only [applyExcludeFilter]
      rw [if_pos (hcont h t), hfil]
    refine ⟨bestPriceRun fh ft, ?_, bestPriceRun_mem fh ft, bestPriceRun_le fh ft⟩
    rw [selectBestRoute_bestPrice_exclude, happ]
  · intro h t _ hfil
    have happ : applyExcludeFilter bestPriceRun (h :: t)
        (some [(bestPriceRun h t).provider]) (bestPriceRun h t) = bestPriceRun h t := by
      simp only [applyExcludeFilter]
      rw [if_pos (hcont h t), hfil]
    rw [selectBestRoute_bestPrice_exclude, happ]

/-- Witness for C6: excluding Orca (the winner of [Raydium 100, Orca 105])
re-selects Raydium; with two Orca quotes only, exclusion would empty the set
and the original winner is kept. -/
theorem c6_exclude_winner_second_best_witness :
    (∃ r, selectBestRoute [qRay100, qOrca105] "BEST_PRICE"
          { excludeDEXs := some [(bestPriceRun qRay100 [qOrca105]).provider] } = .ok r ∧
        r ∈ [qRay100] ∧ ∀ q ∈ [qRay100], q.outputAmount ≤ r.outputAmount) ∧
    selectBestRoute [qOrca90, qOrca105] "BEST_PRICE"
        { excludeDEXs := some [(bestPriceRun qOrca90 [qOrca105]).provider] }
      = .ok (bestPriceRun qOrca90 [qOrca105]) :=
  ⟨c6_exclude_winner_second_best.1 qRay100 [qOrca105] qRay100 [] (by decide) (by decide),
    c6_exclude_winner_second_best.2 qOrca90 [qOrca105] (by decide) (by decide)⟩

/-- C3 fails on the code: the later filters re-filter the ORIGINAL quote
list, so a provider removed by the exclude filter is reconsidered.  Here
Raydium (output 105, liquidity 500 000) is excluded, Orca (output 100,
liquidity 50 000) wins the re-selection, but the minimum-liquidity filter
(100 000) then re-selects Raydium from the original list. -/
theorem c3_counterexample_excluded_provider_returns :
    selectBestRoute [qRayHiLiq, qOrcaLoLiq] "BEST_PRICE"
        { excludeDEXs := some ["Raydium"], minLiquidity := some 100000 } = .ok qRayHiLiq ∧
    ["Raydium"].contains qRayHiLiq.provider = true ∧
    [qRayHiLiq, qOrcaLoLiq].filter (fun q => !(["Raydium"].contains q.provider))
      = [qOrcaLoLiq] :=
  ⟨rfl, rfl, rfl⟩

/-- C3 amended: the three preference filters run in sequence, each gated on
its own condition and skipped when it would empty the candidate set, but
each re-filters the ORIGINAL quote list; hence when the exclude filter has
applied and the re-selected winner violates the minimum liquidity, the final
result is the best-output quote among all original quotes meeting the
liquidity threshold — excluded providers included. -/
theorem c3_filters_rescan_original_list :
    ∀ (h : Quote) (t : List Quote) (ex : List String) (v : ℚ),
      v ≠ 0 →
      ex.contains (bestPriceRun h t).provider = true →
      ∀ (fh : Quote) (ft : List Quote),
        (h :: t).filter (fun q => !(ex.contains q.provider)) = fh :: ft →
        (bestPriceRun fh ft).liquidity < v →
        ∀ (lh : Quote) (lt2 : List Quote),
          (h :: t).filter (fun q => decide (q.liquidity ≥ v)) = lh :: lt2 →
          ∃ r, selectBestRoute (h :: t) "BEST_PRICE"
                { excludeDEXs := some ex, minLiquidity := some v } = .ok r ∧
            r ∈ lh :: lt2 ∧ ∀ q ∈ lh :: lt2, q.outputAmount ≤ r.outputAmount := by
  intro h t ex v hv hcont fh ft hfil hliq lh lt2 hfil2
  have happ1 : applyExcludeFilter bestPriceRun (h :: t) (some ex) (bestPriceRun h t)
      = bestPriceRun fh ft := by
    simp only [applyExcludeFilter]
    rw [if_pos hcont, hfil]
  have happ2 : applyMinLiquidityFilter bestPriceRun (h :: t) (some v) (bestPriceRun fh ft)
      = bestPriceRun lh lt2 := by
    simp only [applyMinLiquidityFilter]
    rw [if_pos ⟨hv, hliq⟩, hfil2]
  refine ⟨bestPriceRun lh lt2, ?_, bestPriceRun_mem lh lt2, bestPriceRun_le lh lt2⟩
  rw [selectBestRoute_bestPrice_exclude_minLiq, happ1, happ2]

/-- Witness for the amended C3 at the concrete two-quote example. -/
theorem c3_filters_rescan_original_list_witness :
    ∃ r, selectBestRoute [qRayHiLiq, qOrcaLoLiq] "BEST_PRICE"
          { excludeDEXs := some ["Raydium"], minLiquidity := some 100000 } = .ok r ∧
      r ∈ [qRayHiLiq] ∧ ∀ q ∈ [qRayHiLiq], q.outputAmount ≤ r.outputAmount :=
  c3_filters_rescan_original_list qRayHiLiq [qOrcaLoLiq] ["Raydium"] 100000
    (by decide) (by decide) qOrcaLoLiq [] (by decide) (by decide) qRayHiLiq [] (by decide)
